import Mathlib

/-!
Shallow embedding of the `action-validator` validation pipeline
(src/lib.rs, src/validation_error.rs, src/validation_state.rs,
src/config.rs, src/schemas.rs) in Lean 4.

External collaborators (the YAML parser `serde_yaml`, the schema engine
`valico`, the `glob` crate's pattern compiler, and the filesystem) are
modelled as an explicit environment of functions; everything the
repository itself implements is translated from the source.
-/

set_option autoImplicit false

namespace ActionValidator

/-- A model of `serde_json::Value`.  Objects are association lists so that
iteration order (`serde_json::Map` iteration) is explicit. -/
inductive Json where
  | null
  | bool (b : Bool)
  | num (n : Int)
  | str (s : String)
  | arr (items : List Json)
  | obj (fields : List (String × Json))
deriving Repr, BEq

/-- Look a key up in an association list (first match), as
`serde_json::Map::get` / `contains_key` do. -/
def lookupField : List (String × Json) → String → Option Json
  | [], _ => none
  | (k, v) :: rest, key => if k = key then some v else lookupField rest key

/-- `&value[key]` on a `serde_json::Value`: indexing a non-object, or an
object without the key, yields `Null`. -/
def Json.get (v : Json) (key : String) : Json :=
  match v with
  | .obj fields =>
    match lookupField fields key with
    | some x => x
    | none => .null
  | _ => .null

/-- `Value::as_str`. -/
def Json.asStr : Json → Option String
  | .str s => some s
  | _ => none

/-- `Value::as_array`. -/
def Json.asArray : Json → Option (List Json)
  | .arr items => some items
  | _ => none

/-- `Value::as_object`. -/
def Json.asObject : Json → Option (List (String × Json))
  | .obj fields => some fields
  | _ => none

/-- `Value::is_null`. -/
def Json.isNull : Json → Bool
  | .null => true
  | _ => false

/-- Four-digit lowercase hex, as in `serde_json`'s `\u00XX` escapes. -/
def hexDigit (n : Nat) : Char :=
  if n < 10 then Char.ofNat (48 + n) else Char.ofNat (87 + n)

/-- Escape one character the way `serde_json`'s `Display` writes JSON
strings. -/
def escapeJsonChar (c : Char) : String :=
  if c = '"' then "\\\""
  else if c = '\\' then "\\\\"
  else if c = '\x08' then "\\b"
  else if c = '\x09' then "\\t"
  else if c = '\x0a' then "\\n"
  else if c = '\x0c' then "\\f"
  else if c = '\x0d' then "\\r"
  else if c.toNat < 32 then
    "\\u00" ++ String.singleton (hexDigit (c.toNat / 16))
            ++ String.singleton (hexDigit (c.toNat % 16))
  else String.singleton c

/-- `format!("{g}")` where `g : &serde_json::Value` is a JSON string:
the `Display` impl prints the quoted, escaped JSON form. -/
def jsonStrDisplay (s : String) : String :=
  "\"" ++ String.join (s.data.map escapeJsonChar) ++ "\""

/-- `config::ActionType`. -/
inductive ActionType where
  | Action
  | Workflow
deriving Repr, BEq, DecidableEq

/-- `validation_error::ValidationErrorMetadata`. -/
structure ValidationErrorMetadata where
  code : String
  path : String
  title : String
  detail : Option String
deriving Repr, BEq

/-- `validation_error::ParseErrorLocation`. -/
structure ParseErrorLocation where
  index : Nat
  line : Nat
  column : Nat
deriving Repr, BEq

/-- `validation_error::ParseErrorMetadata`. -/
structure ParseErrorMetadata where
  code : String
  title : String
  detail : String
  location : Option ParseErrorLocation
deriving Repr, BEq

mutual

/-- `validation_error::ValidationError`: the tagged union of schema
errors, combinator errors (carrying nested states), semantic errors and
the parse error. -/
inductive ValidationError where
  | WrongTypeSchemaError (meta : ValidationErrorMetadata)
  | MultipleOfSchemaError (meta : ValidationErrorMetadata)
  | MaximumSchemaError (meta : ValidationErrorMetadata)
  | MinimumSchemaError (meta : ValidationErrorMetadata)
  | MaxLengthSchemaError (meta : ValidationErrorMetadata)
  | MinLengthSchemaError (meta : ValidationErrorMetadata)
  | PatternSchemaError (meta : ValidationErrorMetadata)
  | MaxItemsSchemaError (meta : ValidationErrorMetadata)
  | MinItemsSchemaError (meta : ValidationErrorMetadata)
  | UniqueItemsSchemaError (meta : ValidationErrorMetadata)
  | ItemsSchemaError (meta : ValidationErrorMetadata)
  | MaxPropertiesSchemaError (meta : ValidationErrorMetadata)
  | MinPropertiesSchemaError (meta : ValidationErrorMetadata)
  | RequiredSchemaError (meta : ValidationErrorMetadata)
  | PropertiesSchemaError (meta : ValidationErrorMetadata)
  | EnumSchemaError (meta : ValidationErrorMetadata)
  | AnyOfSchemaError (states : List ValidationState) (meta : ValidationErrorMetadata)
  | OneOfSchemaError (states : List ValidationState) (meta : ValidationErrorMetadata)
  | ConstSchemaError (meta : ValidationErrorMetadata)
  | ContainsSchemaError (meta : ValidationErrorMetadata)
  | ContainsMinMaxSchemaError (meta : ValidationErrorMetadata)
  | NotSchemaError (meta : ValidationErrorMetadata)
  | DivergentDefaultsSchemaError (meta : ValidationErrorMetadata)
  | FormatSchemaError (meta : ValidationErrorMetadata)
  | UnevaluatedSchemaError (meta : ValidationErrorMetadata)
  | UnknownSchemaError (meta : ValidationErrorMetadata)
  | UnresolvedJobError (meta : ValidationErrorMetadata)
  | InvalidGlobError (meta : ValidationErrorMetadata)
  | NoFilesMatchingGlobError (meta : ValidationErrorMetadata)
  | ParseError (meta : ParseErrorMetadata)

/-- `validation_state::ValidationState`. -/
inductive ValidationState where
  | mk (actionType : Option ActionType) (filePath : Option String)
       (errors : List ValidationError)

end

/-- Field accessor for `ValidationState.action_type`. -/
def ValidationState.actionType : ValidationState → Option ActionType
  | .mk a _ _ => a

/-- Field accessor for `ValidationState.file_path`. -/
def ValidationState.filePath : ValidationState → Option String
  | .mk _ f _ => f

/-- Field accessor for `ValidationState.errors`. -/
def ValidationState.errors : ValidationState → List ValidationError
  | .mk _ _ e => e

/-- `state.errors.push(err)` on a mutable state. -/
def ValidationState.push (st : ValidationState) (e : ValidationError) : ValidationState :=
  .mk st.actionType st.filePath (st.errors ++ [e])

/-- `ValidationState::is_valid`. -/
def ValidationState.isValid (st : ValidationState) : Bool :=
  st.errors.isEmpty

/-- The concrete runtime type of a `Box<dyn valico::common::error::ValicoError>`:
one tag per error type in `valico::json_schema::errors` that the adapter's
downcast chain tests for, plus `Other` for any further implementor of the
trait. -/
inductive ValicoErrorKind where
  | WrongType
  | MultipleOf
  | Maximum
  | Minimum
  | MaxLength
  | MinLength
  | Pattern
  | MaxItems
  | MinItems
  | UniqueItems
  | Items
  | MaxProperties
  | MinProperties
  | Required
  | Properties
  | Enum
  | AnyOf
  | OneOf
  | Const
  | Contains
  | ContainsMinMax
  | Not
  | DivergentDefaults
  | Format
  | Unevaluated
  | Other (typeName : String)
deriving Repr, BEq

mutual

/-- A `Box<dyn ValicoError>` as reported by the external schema engine:
its runtime type, the metadata exposed through `get_code` / `get_path` /
`get_title` / `get_detail`, and — meaningful for the `AnyOf` / `OneOf`
types — the nested per-branch `states`. -/
inductive BoxedValicoError where
  | mk (kind : ValicoErrorKind) (code : String) (path : String) (title : String)
       (detail : Option String) (states : List ValicoValidationState)

/-- `valico::json_schema::ValidationState` (its `errors` field; the engine's
`missing` and `replacement` fields are never read by the adapter). -/
inductive ValicoValidationState where
  | mk (errors : List BoxedValicoError)

end

/-- `BoxedValicoError.states` accessor. -/
def BoxedValicoError.states : BoxedValicoError → List ValicoValidationState
  | .mk _ _ _ _ _ s => s

/-- `ValicoValidationState.errors` accessor. -/
def ValicoValidationState.errors : ValicoValidationState → List BoxedValicoError
  | .mk e => e

mutual

/-- `impl From<&BoxedValicoError> for ValidationError`
(validation_error.rs): the downcast chain, modelled as a match on the
error's runtime type; the trailing `else` is the `UnknownSchemaError`
fallback. -/
def validationErrorOfValico : BoxedValicoError → ValidationError
  | .mk kind code path title detail sts =>
    let meta : ValidationErrorMetadata := ⟨code, path, title, detail⟩
    match kind with
    | .WrongType => .WrongTypeSchemaError meta
    | .MultipleOf => .MultipleOfSchemaError meta
    | .Maximum => .MaximumSchemaError meta
    | .Minimum => .MinimumSchemaError meta
    | .MaxLength => .MaxLengthSchemaError meta
    | .MinLength => .MinLengthSchemaError meta
    | .Pattern => .PatternSchemaError meta
    | .MaxItems => .MaxItemsSchemaError meta
    | .MinItems => .MinItemsSchemaError meta
    | .UniqueItems => .UniqueItemsSchemaError meta
    | .Items => .ItemsSchemaError meta
    | .MaxProperties => .MaxPropertiesSchemaError meta
    | .MinProperties => .MinPropertiesSchemaError meta
    | .Required => .RequiredSchemaError meta
    | .Properties => .PropertiesSchemaError meta
    | .Enum => .EnumSchemaError meta
    | .AnyOf => .AnyOfSchemaError (statesOfValico sts) meta
    | .OneOf => .OneOfSchemaError (statesOfValico sts) meta
    | .Const => .ConstSchemaError meta
    | .Contains => .ContainsSchemaError meta
    | .ContainsMinMax => .ContainsMinMaxSchemaError meta
    | .Not => .NotSchemaError meta
    | .DivergentDefaults => .DivergentDefaultsSchemaError meta
    | .Format => .FormatSchemaError meta
    | .Unevaluated => .UnevaluatedSchemaError meta
    | .Other _ => .UnknownSchemaError meta

/-- `err.states.iter().map(ValidationState::from).collect()` inside the
`AnyOf` / `OneOf` arms. -/
def statesOfValico : List ValicoValidationState → List ValidationState
  | [] => []
  | s :: rest => stateOfValico s :: statesOfValico rest

/-- `impl From<&valico::json_schema::ValidationState> for ValidationState`
(validation_state.rs): `file_path` and `action_type` are `None`, errors
are converted element-wise. -/
def stateOfValico : ValicoValidationState → ValidationState
  | .mk errs => .mk none none (errorsOfValico errs)

/-- `state.errors.iter().map(|err| err.into()).collect()`. -/
def errorsOfValico : List BoxedValicoError → List ValidationError
  | [] => []
  | e :: rest => validationErrorOfValico e :: errorsOfValico rest

end

/-- `serde_yaml::Error`: its display message and optional location. -/
structure SerdeYamlError where
  message : String
  location : Option ParseErrorLocation
deriving Repr, BEq

/-- `impl From<serde_yaml::Error> for ParseErrorMetadata`. -/
def parseErrorMetadataOfYaml (err : SerdeYamlError) : ParseErrorMetadata :=
  ⟨"parse_error", "Parse Error", err.message, err.location⟩

/-- The external collaborators: the YAML parser, the schema engine with its
two bundled schemas (`schemas::validate_as_action` / `validate_as_workflow`,
represented by the error list of the valico state they return), the glob
compiler, and the filesystem (how many entries a compiled glob matches under
the current working directory). Fixing an `Env` fixes all of them. -/
structure Env where
  parseYaml : String → Except SerdeYamlError Json
  engine : ActionType → Json → List BoxedValicoError
  globCompile : String → Except String Unit
  globMatchCount : String → Nat

/-- `validate_as_action` / `validate_as_workflow` composed with the
`From<valico::json_schema::ValidationState>` conversion: the seeded
`ValidationState` holding the engine's errors. -/
def validateWithEngine (env : Env) (ty : ActionType) (doc : Json) : ValidationState :=
  .mk none none (errorsOfValico (env.engine ty doc))

/-- The `ValidationError::NoFilesMatchingGlobError` pushed by
`validate_globs` for pattern string `s` at `path`. -/
def noFilesMatchingErr (s path : String) : ValidationError :=
  .NoFilesMatchingGlobError ⟨"glob_not_matched", path, "Glob does not match any files",
    some ("Glob " ++ jsonStrDisplay s ++ " in " ++ path ++ " does not match any files")⟩

/-- The `ValidationError::InvalidGlobError` pushed by `validate_globs` for
pattern string `s` at `path`, with compiler message `e`. -/
def invalidGlobErr (s path e : String) : ValidationError :=
  .InvalidGlobError ⟨"invalid_glob", path, "Glob does not match any files",
    some ("Glob " ++ jsonStrDisplay s ++ " in " ++ path ++ " is invalid: " ++ e)⟩

/-- The `for g in globs` loop of the non-js `validate_globs`; `none` models
the panic of `g.as_str().unwrap()` on a non-string entry. -/
def globLoop (env : Env) (path : String) : List Json → ValidationState → Option ValidationState
  | [], st => some st
  | g :: rest, st =>
    match g.asStr with
    | none => none
    | some s =>
      match env.globCompile s with
      | .ok _ =>
        if env.globMatchCount s = 0 then
          globLoop env path rest (st.push (noFilesMatchingErr s path))
        else
          globLoop env path rest st
      | .error e => globLoop env path rest (st.push (invalidGlobErr s path e))

/-- `validate_globs` under `cfg(not(feature = "js"))`; `none` models a panic
(the `unreachable!` for a non-null non-array value, or the `unwrap` inside
the loop). -/
def validateGlobs (env : Env) (globs : Json) (path : String) (st : ValidationState) :
    Option ValidationState :=
  if globs.isNull then some st
  else
    match globs.asArray with
    | some gs => globLoop env path gs st
    | none => none

/-- `validate_paths`: the four trigger-path fields, in source order. -/
def validatePaths (env : Env) (doc : Json) (st : ValidationState) : Option ValidationState := do
  let st ← validateGlobs env (((doc.get "on").get "push").get "paths") "/on/push/paths" st
  let st ← validateGlobs env (((doc.get "on").get "push").get "paths-ignore")
    "/on/push/paths-ignore" st
  let st ← validateGlobs env (((doc.get "on").get "pull_request").get "paths")
    "/on/pull_request/paths" st
  validateGlobs env (((doc.get "on").get "pull_request").get "paths-ignore")
    "/on/pull_request/paths-ignore" st

/-- `is_invalid_dependency` inside `validate_job_needs`. -/
def isInvalidDependency (jobs : List (String × Json)) (needStr : String) : Bool :=
  (lookupField jobs needStr).isNone

/-- The `ValidationError::UnresolvedJobError` pushed by
`handle_unresolved_job`. -/
def unresolvedJobErr (jobName needsStr : String) : ValidationError :=
  .UnresolvedJobError ⟨"unresolved_job", "/jobs/" ++ jobName ++ "/needs", "Unresolved job",
    some ("unresolved job " ++ needsStr)⟩

/-- The errors one iteration of the `for (job_name, job) in jobs` loop
pushes: the string case, the array case (non-strings filtered out), and
no errors for any other shape of `needs`. -/
def jobNeedsErrors (jobs : List (String × Json)) (jobName : String) (job : Json) :
    List ValidationError :=
  let needs := job.get "needs"
  match needs.asStr with
  | some needsStr =>
    if isInvalidDependency jobs needsStr then [unresolvedJobErr jobName needsStr] else []
  | none =>
    match needs.asArray with
    | some needsArray =>
      ((needsArray.filterMap Json.asStr).filter (isInvalidDependency jobs)).map
        (unresolvedJobErr jobName)
    | none => []

/-- The `for (job_name, job) in jobs.iter()` loop of `validate_job_needs`:
the first argument is the whole jobs map (for `contains_key`), the second
the remaining iteration. -/
def jobsLoop (jobs : List (String × Json)) :
    List (String × Json) → ValidationState → ValidationState
  | [], st => st
  | (name, job) :: rest, st =>
    jobsLoop jobs rest (.mk st.actionType st.filePath (st.errors ++ jobNeedsErrors jobs name job))

/-- `validate_job_needs`. -/
def validateJobNeeds (doc : Json) (st : ValidationState) : ValidationState :=
  match (doc.get "jobs").asObject with
  | some jobs => jobsLoop jobs jobs st
  | none => st

/-- `config::RunConfig` as used by `run` / `run_cli`. -/
structure RunConfig where
  filePath : Option String
  fileName : Option String
  actionType : ActionType
  src : String
  verbose : Bool

/-- lib.rs `run` (the CLI / non-js build): parse, validate against the
engine, then for a Workflow run `validate_paths` and `validate_job_needs`
— in that source order — and finally stamp `action_type` and `file_path`.
`none` models a panic inside glob validation; the verbose log lines go to
an external sink and are omitted. -/
def run (env : Env) (config : RunConfig) : Option ValidationState := do
  let fileName := config.fileName.getD "file"
  let st ←
    match env.parseYaml config.src with
    | .error err =>
      some (ValidationState.mk (some config.actionType) (some fileName)
        [ValidationError.ParseError (parseErrorMetadataOfYaml err)])
    | .ok doc =>
      match config.actionType with
      | .Action => some (validateWithEngine env .Action doc)
      | .Workflow => do
        let st := validateWithEngine env .Workflow doc
        let st ← validatePaths env doc st
        some (validateJobNeeds doc st)
  some (ValidationState.mk (some config.actionType) config.filePath st.errors)

/-- The warning line the js `validate_globs` emits for a non-null field. -/
def globWarnLine (path : String) : String :=
  "WARNING: Glob validation is not yet supported. Glob at " ++ path ++
    " will not be validated."

/-- `validate_globs` under `cfg(feature = "js")`: pushes no error; for a
non-null value it emits one warning line to the console. The returned list
holds the warning lines emitted. -/
def validateGlobsJs (globs : Json) (path : String) (st : ValidationState) :
    ValidationState × List String :=
  if globs.isNull then (st, [])
  else
    (st, [globWarnLine path])

/-- `validate_paths` as compiled in the js build (same call sites, js
`validate_globs`), collecting the warnings in emission order. -/
def validatePathsJs (doc : Json) (st : ValidationState) : ValidationState × List String :=
  let (st, w1) := validateGlobsJs (((doc.get "on").get "push").get "paths") "/on/push/paths" st
  let (st, w2) := validateGlobsJs (((doc.get "on").get "push").get "paths-ignore")
    "/on/push/paths-ignore" st
  let (st, w3) := validateGlobsJs (((doc.get "on").get "pull_request").get "paths")
    "/on/pull_request/paths" st
  let (st, w4) := validateGlobsJs (((doc.get "on").get "pull_request").get "paths-ignore")
    "/on/pull_request/paths-ignore" st
  (st, w1 ++ w2 ++ w3 ++ w4)

/-- lib.rs `run` as compiled in the js build: identical to `run` except that
glob validation is the warning-only js variant, so no step can panic and
the result is total. Also returns the warning lines. -/
def runJsBuild (env : Env) (config : RunConfig) : ValidationState × List String :=
  let fileName := config.fileName.getD "file"
  let (st, warns) :=
    match env.parseYaml config.src with
    | .error err =>
      (ValidationState.mk (some config.actionType) (some fileName)
        [ValidationError.ParseError (parseErrorMetadataOfYaml err)], [])
    | .ok doc =>
      match config.actionType with
      | .Action => (validateWithEngine env .Action doc, [])
      | .Workflow =>
        let st := validateWithEngine env .Workflow doc
        let (st, warns) := validatePathsJs doc st
        (validateJobNeeds doc st, warns)
  (ValidationState.mk (some config.actionType) config.filePath st.errors, warns)

/-- `config::JsConfig`. -/
structure JsConfig where
  actionType : ActionType
  src : String
  verbose : Bool

/-- Modelled from the spec: the `From<&JsConfig> for RunConfig` conversion
invoked by `run_js` (`config.into()`) is not among the sources. Per the
spec, the embedded/binding context has no file name available and requires
an explicit kind, so the resulting RunConfig carries no file path and no
file name. -/
def runConfigOfJsConfig (c : JsConfig) : RunConfig :=
  ⟨none, none, c.actionType, c.src, c.verbose⟩

/-- `validate_action` + `run_js`: the embedded entry point for Action
documents (the serialization of the state to a host value is external). -/
def validateActionEntry (env : Env) (src : String) : ValidationState × List String :=
  runJsBuild env (runConfigOfJsConfig ⟨.Action, src, false⟩)

/-- `validate_workflow` + `run_js`: the embedded entry point for Workflow
documents. -/
def validateWorkflowEntry (env : Env) (src : String) : ValidationState × List String :=
  runJsBuild env (runConfigOfJsConfig ⟨.Workflow, src, false⟩)

/-- The `action_type` match inside `run_cli`: the kind chosen from the
(possibly non-UTF-8, hence optional) file name. -/
def cliActionType (fileName : Option String) : ActionType :=
  match fileName with
  | some "action.yml" => .Action
  | some "action.yaml" => .Action
  | _ => .Workflow

/-! Classification of errors into the categories the spec's ordering
statement speaks about. -/

/-- Is this one of the two glob errors? -/
def ValidationError.isGlobErr : ValidationError → Bool
  | .InvalidGlobError _ => true
  | .NoFilesMatchingGlobError _ => true
  | _ => false

/-- Is this an `UnresolvedJobError`? -/
def ValidationError.isUnresolvedJob : ValidationError → Bool
  | .UnresolvedJobError _ => true
  | _ => false

/-- Is this one of the schema-conformance errors produced by the adapter
(everything except the three semantic errors and the parse error)? -/
def ValidationError.isSchemaErr : ValidationError → Bool
  | .UnresolvedJobError _ => false
  | .InvalidGlobError _ => false
  | .NoFilesMatchingGlobError _ => false
  | .ParseError _ => false
  | _ => true

/-- The order the spec claims for a Workflow's error list: a block of
schema errors, then a block of UnresolvedJob errors, then a block of glob
errors.  Because the three categories are disjoint, a list matches that
shape exactly when dropping the leading schema block and then the leading
UnresolvedJob block leaves only glob errors. -/
def schemaThenJobsThenGlobs (l : List ValidationError) : Bool :=
  ((l.dropWhile ValidationError.isSchemaErr).dropWhile
    ValidationError.isUnresolvedJob).all ValidationError.isGlobErr

/-! Spec-shaped descriptions of the two semantic passes, written from the
spec's words, to be compared against the source-translated functions. -/

/-- The errors the spec prescribes for one pattern string: a compile
failure appends an InvalidGlob error carrying the compiler's message; a
successful compile matching zero entries appends a NoFilesMatchingGlob
error; otherwise nothing. -/
def globErrorsForPattern (env : Env) (s path : String) : List ValidationError :=
  match env.globCompile s with
  | .error e => [invalidGlobErr s path e]
  | .ok _ => if env.globMatchCount s = 0 then [noFilesMatchingErr s path] else []

/-- All elements as strings, or `none` if some element is not a string. -/
def allStrings : List Json → Option (List String)
  | [] => some []
  | g :: rest =>
    match g.asStr with
    | none => none
    | some s => (allStrings rest).map (fun ss => s :: ss)

/-- The spec's description of one trigger-path field: `none` when the
field is present but not a well-shaped sequence of pattern strings
(where the source panics); `some []` for an absent or null field; for a
sequence of strings, the per-pattern errors in array order. -/
def fieldGlobErrors (env : Env) (v : Json) (path : String) : Option (List ValidationError) :=
  if v.isNull then some []
  else
    match v.asArray with
    | some gs => (allStrings gs).map (fun ss => ss.flatMap (fun s => globErrorsForPattern env s path))
    | none => none

/-- The spec's description of the whole glob pass: the four fields'
errors concatenated in field order `push.paths`, `push.paths-ignore`,
`pull_request.paths`, `pull_request.paths-ignore`. -/
def workflowGlobErrors (env : Env) (doc : Json) : Option (List ValidationError) := do
  let e1 ← fieldGlobErrors env (((doc.get "on").get "push").get "paths") "/on/push/paths"
  let e2 ← fieldGlobErrors env (((doc.get "on").get "push").get "paths-ignore")
    "/on/push/paths-ignore"
  let e3 ← fieldGlobErrors env (((doc.get "on").get "pull_request").get "paths")
    "/on/pull_request/paths"
  let e4 ← fieldGlobErrors env (((doc.get "on").get "pull_request").get "paths-ignore")
    "/on/pull_request/paths-ignore"
  some (e1 ++ e2 ++ e3 ++ e4)

/-- The spec's description of the names a job's `needs` field references:
a single job-name string, or the strings inside a sequence (non-string
entries silently ignored), or nothing for any other shape. -/
def specNeedsRefs (job : Json) : List String :=
  match job.get "needs" with
  | .str s => [s]
  | .arr items => items.filterMap Json.asStr
  | _ => []

/-- The spec's description of the job-dependency pass output: one
UnresolvedJob error, at `/jobs/<job-name>/needs` and naming the missing
job, for each referenced name not present as a key in `jobs`, in jobs-map
iteration order. -/
def unresolvedNeedsErrors (jobs : List (String × Json)) : List ValidationError :=
  jobs.flatMap fun p =>
    ((specNeedsRefs p.2).filter (fun s => (lookupField jobs s).isNone)).map (unresolvedJobErr p.1)

/-- The job-dependency errors of a whole document: those of its `jobs`
mapping, or none when the document has no `jobs` mapping. -/
def workflowNeedsErrors (doc : Json) : List ValidationError :=
  match (doc.get "jobs").asObject with
  | some jobs => unresolvedNeedsErrors jobs
  | none => []

/-- The four trigger-path values of a document, in source field order. -/
def pathFieldValues (doc : Json) : List Json :=
  [((doc.get "on").get "push").get "paths",
   ((doc.get "on").get "push").get "paths-ignore",
   ((doc.get "on").get "pull_request").get "paths",
   ((doc.get "on").get "pull_request").get "paths-ignore"]

/-- Erase the injected display path from a state (for comparing runs that
differ only in the display path). -/
def stripPath (st : ValidationState) : ValidationState :=
  .mk st.actionType none st.errors

@[simp] lemma errors_mk (a : Option ActionType) (f : Option String) (e : List ValidationError) :
    (ValidationState.mk a f e).errors = e := rfl

@[simp] lemma actionType_mk (a : Option ActionType) (f : Option String)
    (e : List ValidationError) : (ValidationState.mk a f e).actionType = a := rfl

@[simp] lemma filePath_mk (a : Option ActionType) (f : Option String)
    (e : List ValidationError) : (ValidationState.mk a f e).filePath = f := rfl

lemma state_eta (st : ValidationState) : st = .mk st.actionType st.filePath st.errors := by
  cases st
  rfl

lemma jobsLoop_errors (jobs : List (String × Json)) :
    ∀ (rest : List (String × Json)) (st : ValidationState),
      (jobsLoop jobs rest st).errors
        = st.errors ++ rest.flatMap (fun p => jobNeedsErrors jobs p.1 p.2)
  | [], st => by simp [jobsLoop]
  | (name, job) :: rest, st => by
    simp [jobsLoop, jobsLoop_errors jobs rest, List.flatMap_cons, List.append_assoc]

lemma jobNeedsErrors_eq_spec (jobs : List (String × Json)) (name : String) (job : Json) :
    jobNeedsErrors jobs name job
      = ((specNeedsRefs job).filter (fun s => (lookupField jobs s).isNone)).map
          (unresolvedJobErr name) := by
  unfold jobNeedsErrors specNeedsRefs
  cases h : job.get "needs" with
  | str s =>
    simp only [Json.asStr, List.filter_cons, List.filter_nil, isInvalidDependency]
    split <;> simp
  | _ => rfl

lemma validateJobNeeds_errors (doc : Json) (st : ValidationState) :
    (validateJobNeeds doc st).errors = st.errors ++ workflowNeedsErrors doc := by
  unfold validateJobNeeds workflowNeedsErrors
  cases h : (doc.get "jobs").asObject with
  | none => simp
  | some jobs =>
    simp only [jobsLoop_errors, unresolvedNeedsErrors, jobNeedsErrors_eq_spec]

/-- Claim C3: for a document whose `jobs` field is a mapping, the
job-dependency pass appends exactly one UnresolvedJob error — at
`/jobs/<job-name>/needs`, naming the missing job — for each name
referenced by a job's `needs` field (a string, or a string inside a
sequence, non-strings ignored) that is not a key of the mapping, and
nothing else. -/
theorem validate_job_needs_unresolved (doc : Json) (st : ValidationState)
    (jobs : List (String × Json)) (h : (doc.get "jobs").asObject = some jobs) :
    (validateJobNeeds doc st).errors = st.errors ++ unresolvedNeedsErrors jobs := by
  rw [validateJobNeeds_errors, workflowNeedsErrors, h]

/-- The document of the claim C3 example:
`jobs: {a: {}, b: {needs: "a"}, c: {needs: ["a","z"]}}`. -/
def docNeedsExample : Json :=
  .obj [("jobs", .obj
    [("a", .obj []),
     ("b", .obj [("needs", .str "a")]),
     ("c", .obj [("needs", .arr [.str "a", .str "z"])])])]

/-- The jobs mapping of `docNeedsExample`. -/
def jobsNeedsExample : List (String × Json) :=
  [("a", .obj []),
   ("b", .obj [("needs", .str "a")]),
   ("c", .obj [("needs", .arr [.str "a", .str "z"])])]

/-- Witness for claim C3: on the spec's example the pass appends exactly
one UnresolvedJob error, for `z` at `/jobs/c/needs`. -/
theorem validate_job_needs_unresolved_witness :
    (validateJobNeeds docNeedsExample (.mk none none [])).errors
      = [unresolvedJobErr "c" "z"] :=
  (validate_job_needs_unresolved docNeedsExample (.mk none none []) jobsNeedsExample rfl).trans
    (by rfl)

/-- Claim C2: when YAML parsing fails, the returned state's error list is
exactly one ParseError (carrying the parser's message and optional
location), and no other entry — the remaining pipeline is skipped. -/
theorem run_parse_error_single (env : Env) (cfg : RunConfig) (err : SerdeYamlError)
    (h : env.parseYaml cfg.src = .error err) :
    run env cfg = some (.mk (some cfg.actionType) cfg.filePath
      [ValidationError.ParseError ⟨"parse_error", "Parse Error", err.message, err.location⟩]) := by
  simp [run, h, parseErrorMetadataOfYaml]

/-- An environment whose parser always fails (its engine reports nothing
and its glob checks are trivial), for the C2 witness. -/
def envParseFail : Env where
  parseYaml := fun _ => .error ⟨"bad yaml", some ⟨3, 1, 4⟩⟩
  engine := fun _ _ => []
  globCompile := fun _ => .ok ()
  globMatchCount := fun _ => 1

/-- Witness for claim C2 at a concrete failing parse. -/
theorem run_parse_error_single_witness :
    run envParseFail ⟨some "wf.yml", some "wf.yml", .Workflow, "not: valid: yaml", false⟩
      = some (.mk (some .Workflow) (some "wf.yml")
          [ValidationError.ParseError ⟨"parse_error", "Parse Error", "bad yaml",
            some ⟨3, 1, 4⟩⟩]) :=
  run_parse_error_single envParseFail ⟨some "wf.yml", some "wf.yml", .Workflow, "not: valid: yaml", false⟩
    ⟨"bad yaml", some ⟨3, 1, 4⟩⟩ rfl

/-- Claim C8: the CLI kind selector is total on (possibly non-decodable)
file names: `action.yml` / `action.yaml` select Action, every other file
name — a different name or a non-UTF-8 one — selects Workflow. -/
theorem cli_action_type_total :
    cliActionType (some "action.yml") = .Action
    ∧ cliActionType (some "action.yaml") = .Action
    ∧ ∀ n : Option String, n ≠ some "action.yml" → n ≠ some "action.yaml" →
        cliActionType n = .Workflow := by
  refine ⟨rfl, rfl, ?_⟩
  intro n h1 h2
  unfold cliActionType
  split
  · simp_all
  · simp_all
  · rfl

/-- Witness for claim C8: a non-matching name and a non-decodable name
both select Workflow. -/
theorem cli_action_type_total_witness :
    cliActionType (some "build.yml") = .Workflow ∧ cliActionType none = .Workflow :=
  ⟨cli_action_type_total.2.2 (some "build.yml") (by decide) (by decide),
   cli_action_type_total.2.2 none (by decide) (by decide)⟩

/-- Claim C6: the adapter's conversion is total; an engine error whose
runtime type is none of the recognized kinds maps to the
`UnknownSchemaError` fallback carrying the engine-reported code, path,
title and optional detail, and the conversion of an error list drops no
error (it is length-preserving, one output per input). -/
theorem unknown_kind_fallback :
    (∀ (name code path title : String) (detail : Option String)
        (sts : List ValicoValidationState),
      validationErrorOfValico (.mk (.Other name) code path title detail sts)
        = .UnknownSchemaError ⟨code, path, title, detail⟩)
    ∧ ∀ l : List BoxedValicoError, (errorsOfValico l).length = l.length := by
  constructor
  · intro name code path title detail sts
    rfl
  · intro l
    induction l with
    | nil => rfl
    | cons e rest ih => simp [errorsOfValico, ih]

lemma statesOfValico_length (sts : List ValicoValidationState) :
    (statesOfValico sts).length = sts.length := by
  induction sts with
  | nil => rfl
  | cons s rest ih => simp [statesOfValico, ih]

lemma statesOfValico_get (sts : List ValicoValidationState) (i : Nat)
    (h1 : i < (statesOfValico sts).length) (h2 : i < sts.length) :
    (statesOfValico sts).get ⟨i, h1⟩ = stateOfValico (sts.get ⟨i, h2⟩) := by
  induction sts generalizing i with
  | nil => exact absurd h2 (Nat.not_lt_zero i)
  | cons s rest ih =>
    cases i with
    | zero => rfl
    | succ j =>
      exact ih j (Nat.lt_of_succ_lt_succ (by simpa [statesOfValico] using h1))
        (Nat.lt_of_succ_lt_succ h2)

/-- Claim C5: an AnyOf / OneOf engine failure is surfaced as an
AnyOfSchemaError / OneOfSchemaError whose nested state list has exactly
one entry per candidate branch, and each nested state's errors are that
branch's own engine errors converted element-wise through the taxonomy —
never merged across branches. -/
theorem anyOf_oneOf_branch_states (code path title : String) (detail : Option String)
    (sts : List ValicoValidationState) :
    validationErrorOfValico (.mk .AnyOf code path title detail sts)
        = .AnyOfSchemaError (statesOfValico sts) ⟨code, path, title, detail⟩
    ∧ validationErrorOfValico (.mk .OneOf code path title detail sts)
        = .OneOfSchemaError (statesOfValico sts) ⟨code, path, title, detail⟩
    ∧ (statesOfValico sts).length = sts.length
    ∧ ∀ (i : Nat) (h1 : i < (statesOfValico sts).length) (h2 : i < sts.length),
        ((statesOfValico sts).get ⟨i, h1⟩).errors
          = errorsOfValico (sts.get ⟨i, h2⟩).errors := by
  refine ⟨rfl, rfl, statesOfValico_length sts, ?_⟩
  intro i h1 h2
  rw [statesOfValico_get sts i h1 h2]
  cases sts.get ⟨i, h2⟩
  rfl

/-- A two-branch AnyOf failure where branch 1 fails on type and branch 2
on a required property, for the C5 witness. -/
def anyOfExampleBranches : List ValicoValidationState :=
  [.mk [.mk .WrongType "wrong_type" "/a" "Type of the value is wrong" (some "expected string")
          []],
   .mk [.mk .Required "required" "/b" "This property is required" none []]]

/-- Witness for claim C5: on the two-branch example the surfaced error
keeps two nested states and branch 0's state holds exactly branch 0's
converted failure. -/
theorem anyOf_oneOf_branch_states_witness :
    (statesOfValico anyOfExampleBranches).length = 2
    ∧ ((statesOfValico anyOfExampleBranches).get ⟨0, by decide⟩).errors
        = errorsOfValico (anyOfExampleBranches.get ⟨0, by decide⟩).errors :=
  ⟨(anyOf_oneOf_branch_states "any_of" "/x" "AnyOf conditions are not met" none
      anyOfExampleBranches).2.2.1,
   (anyOf_oneOf_branch_states "any_of" "/x" "AnyOf conditions are not met" none
      anyOfExampleBranches).2.2.2 0 (by decide) (by decide)⟩

lemma globLoop_spec (env : Env) (path : String) :
    ∀ (gs : List Json) (ss : List String) (st : ValidationState),
      allStrings gs = some ss →
      globLoop env path gs st
        = some (.mk st.actionType st.filePath
            (st.errors ++ ss.flatMap (fun s => globErrorsForPattern env s path)))
  | [], ss, st, h => by
    cases h
    simpa [globLoop] using state_eta st
  | g :: rest, ss, st, h => by
    cases hg : g.asStr with
    | none => simp [allStrings, hg] at h
    | some s =>
      simp only [allStrings, hg, Option.map_eq_some'] at h
      obtain ⟨ss', hrest, rfl⟩ := h
      cases hc : env.globCompile s with
      | ok u =>
        cases u
        by_cases hz : env.globMatchCount s = 0
        · simpa [globLoop, hg, hc, hz, ValidationState.push, globErrorsForPattern]
            using globLoop_spec env path rest ss' (st.push (noFilesMatchingErr s path)) hrest
        · simpa [globLoop, hg, hc, hz, globErrorsForPattern]
            using globLoop_spec env path rest ss' st hrest
      | error e =>
        simpa [globLoop, hg, hc, ValidationState.push, globErrorsForPattern]
          using globLoop_spec env path rest ss' (st.push (invalidGlobErr s path e)) hrest

lemma validateGlobs_spec (env : Env) (v : Json) (path : String) (st : ValidationState)
    (es : List ValidationError) (h : fieldGlobErrors env v path = some es) :
    validateGlobs env v path st = some (.mk st.actionType st.filePath (st.errors ++ es)) := by
  unfold fieldGlobErrors at h
  unfold validateGlobs
  by_cases hn : v.isNull
  · simp only [hn, if_pos] at h ⊢
    cases h
    simpa using state_eta st
  · simp only [hn, if_neg, Bool.false_eq_true, not_false_eq_true] at h ⊢
    cases ha : v.asArray with
    | none => simp [ha] at h
    | some gs =>
      simp only [ha, Option.map_eq_some'] at h
      obtain ⟨ss, hss, rfl⟩ := h
      exact globLoop_spec env path gs ss st hss

/-- Claim C4: a null (or absent, which indexes to null) trigger-path
field produces no error and no panic; a field that is a sequence of
pattern strings appends, per pattern in array order, an InvalidGlob error
carrying the compiler's message when compilation fails, and a
NoFilesMatchingGlob error when the compiled glob matches zero filesystem
entries — both at the field's path (`fieldGlobErrors` spells out that
spec description). -/
theorem validate_globs_field_behavior (env : Env) (v : Json) (path : String)
    (st : ValidationState) :
    (v.isNull = true → validateGlobs env v path st = some st
        ∧ fieldGlobErrors env v path = some [])
    ∧ ∀ es : List ValidationError, fieldGlobErrors env v path = some es →
        validateGlobs env v path st = some (.mk st.actionType st.filePath (st.errors ++ es)) := by
  constructor
  · intro hn
    refine ⟨?_, ?_⟩
    · simp [validateGlobs, hn]
    · simp [fieldGlobErrors, hn]
  · intro es h
    exact validateGlobs_spec env v path st es h

/-- The glob environment of the spec's C4 example: `[unterminated` fails
to compile, every other pattern compiles and matches nothing (an empty
working tree). -/
def envEmptyTree : Env where
  parseYaml := fun _ => .error ⟨"unused", none⟩
  engine := fun _ _ => []
  globCompile := fun s => if s = "[unterminated" then .error "invalid range pattern" else .ok ()
  globMatchCount := fun _ => 0

/-- Witness for claim C4: a null field yields no error; the field
`["no/such/file/*.txt"]` yields one NoFilesMatchingGlob error and the
field `["[unterminated"]` one InvalidGlob error, each at
`/on/push/paths`. -/
theorem validate_globs_field_behavior_witness :
    validateGlobs envEmptyTree .null "/on/push/paths" (.mk none none []) = some (.mk none none [])
    ∧ validateGlobs envEmptyTree (.arr [.str "no/such/file/*.txt"]) "/on/push/paths"
        (.mk none none [])
        = some (.mk none none [noFilesMatchingErr "no/such/file/*.txt" "/on/push/paths"])
    ∧ validateGlobs envEmptyTree (.arr [.str "[unterminated"]) "/on/push/paths"
        (.mk none none [])
        = some (.mk none none
            [invalidGlobErr "[unterminated" "/on/push/paths" "invalid range pattern"]) :=
  ⟨((validate_globs_field_behavior envEmptyTree .null "/on/push/paths" (.mk none none [])).1
      rfl).1,
   ((validate_globs_field_behavior envEmptyTree (.arr [.str "no/such/file/*.txt"])
      "/on/push/paths" (.mk none none [])).2 _ rfl).trans (by rfl),
   ((validate_globs_field_behavior envEmptyTree (.arr [.str "[unterminated"])
      "/on/push/paths" (.mk none none [])).2 _ rfl).trans (by rfl)⟩

lemma globLoop_none (env : Env) (path : String) :
    ∀ (gs : List Json) (st : ValidationState) (g : Json),
      g ∈ gs → g.asStr = none → globLoop env path gs st = none
  | [], _, _, hmem, _ => absurd hmem (List.not_mem_nil _)
  | a :: rest, st, g, hmem, hstr => by
    cases ha : a.asStr with
    | none => simp [globLoop, ha]
    | some s =>
      have hg : g ∈ rest := by
        cases List.mem_cons.mp hmem with
        | inl he => rw [he] at hstr; rw [hstr] at ha; cases ha
        | inr h => exact h
      cases hc : env.globCompile s with
      | ok u =>
        cases u
        by_cases hz : env.globMatchCount s = 0 <;>
          simp [globLoop, ha, hc, hz, globLoop_none env path rest _ g hg hstr]
      | error e =>
        simp [globLoop, ha, hc, globLoop_none env path rest _ g hg hstr]

/-- Claim C10: in the non-embedded build the glob pass panics — rather
than producing an error entry — on a trigger-path value that is present
and non-null but not an array (the `unreachable!`), and on an array
containing a non-string entry (the `as_str().unwrap()`); `none` is the
embedding of a panic. -/
theorem validate_globs_panics (env : Env) (v : Json) (path : String) (st : ValidationState) :
    (v.isNull = false → v.asArray = none → validateGlobs env v path st = none)
    ∧ ∀ (gs : List Json) (g : Json), v.asArray = some gs → g ∈ gs → g.asStr = none →
        validateGlobs env v path st = none := by
  constructor
  · intro hn ha
    simp [validateGlobs, hn, ha]
  · intro gs g ha hmem hstr
    have hn : v.isNull = false := by cases v <;> simp_all [Json.asArray, Json.isNull]
    simp only [validateGlobs, hn, Bool.false_eq_true, if_false, ha]
    exact globLoop_none env path gs st g hmem hstr

/-- Witness for claim C10: a string-valued field and an array holding a
number both make the pass panic. -/
theorem validate_globs_panics_witness :
    validateGlobs envEmptyTree (.str "src/*") "/on/push/paths" (.mk none none []) = none
    ∧ validateGlobs envEmptyTree (.arr [.num 1]) "/on/push/paths" (.mk none none []) = none :=
  ⟨(validate_globs_panics envEmptyTree (.str "src/*") "/on/push/paths" (.mk none none [])).1
      rfl rfl,
   (validate_globs_panics envEmptyTree (.arr [.num 1]) "/on/push/paths" (.mk none none [])).2
      [.num 1] (.num 1) rfl (List.mem_singleton.mpr rfl) rfl⟩

lemma validatePaths_spec (env : Env) (doc : Json) (st : ValidationState)
    (es : List ValidationError) (h : workflowGlobErrors env doc = some es) :
    validatePaths env doc st = some (.mk st.actionType st.filePath (st.errors ++ es)) := by
  unfold workflowGlobErrors at h
  simp only [Option.bind_eq_bind, Option.bind_eq_some] at h
  obtain ⟨e1, h1, e2, h2, e3, h3, e4, h4, hes⟩ := h
  have hes' := Option.some.inj hes
  subst hes'
  have g1 := validateGlobs_spec env (((doc.get "on").get "push").get "paths")
    "/on/push/paths" st e1 h1
  have g2 := validateGlobs_spec env (((doc.get "on").get "push").get "paths-ignore")
    "/on/push/paths-ignore" (.mk st.actionType st.filePath (st.errors ++ e1)) e2 h2
  have g3 := validateGlobs_spec env (((doc.get "on").get "pull_request").get "paths")
    "/on/pull_request/paths" (.mk st.actionType st.filePath (st.errors ++ e1 ++ e2)) e3 h3
  have g4 := validateGlobs_spec env (((doc.get "on").get "pull_request").get "paths-ignore")
    "/on/pull_request/paths-ignore"
    (.mk st.actionType st.filePath (st.errors ++ e1 ++ e2 ++ e3)) e4 h4
  simp only [errors_mk, actionType_mk, filePath_mk, List.append_assoc] at g1 g2 g3 g4
  simp [validatePaths, g1, g2, g3, g4, List.append_assoc]

/-- Claim C1 (amended): for a Workflow document that parses, the final
error list is the schema-conformance errors first (in engine-reported
order), then all glob errors (in field order `push.paths`,
`push.paths-ignore`, `pull_request.paths`, `pull_request.paths-ignore`,
array order within a field), then all UnresolvedJob errors (in jobs-map
iteration order) — the glob pass runs before the job pass, not after it
as the claim states. -/
theorem run_workflow_error_order (env : Env) (cfg : RunConfig) (doc : Json)
    (ges : List ValidationError) (h1 : env.parseYaml cfg.src = .ok doc)
    (h2 : cfg.actionType = .Workflow) (h3 : workflowGlobErrors env doc = some ges) :
    run env cfg = some (.mk (some .Workflow) cfg.filePath
      (errorsOfValico (env.engine .Workflow doc) ++ ges ++ workflowNeedsErrors doc)) := by
  have hp := validatePaths_spec env doc (validateWithEngine env .Workflow doc) ges h3
  simp only [validateWithEngine, errors_mk, actionType_mk, filePath_mk] at hp
  simp [run, h1, h2, validateWithEngine, hp, validateJobNeeds_errors, List.append_assoc]

/-- A Workflow document with one glob error (`on.push.paths: ["x"]` under
an env rejecting every pattern) and one job-dependency error
(`jobs.a.needs: "z"` with no job `z`). -/
def docOrderCx : Json :=
  .obj [("on", .obj [("push", .obj [("paths", .arr [.str "x"])])]),
        ("jobs", .obj [("a", .obj [("needs", .str "z")])])]

/-- An environment that parses every text to `docOrderCx`, whose engine
reports no schema error, and whose glob compiler rejects every pattern. -/
def envOrderCx : Env where
  parseYaml := fun _ => .ok docOrderCx
  engine := fun _ _ => []
  globCompile := fun _ => .error "bad pattern"
  globMatchCount := fun _ => 0

/-- A CLI-style run configuration for the ordering counterexample. -/
def cfgOrderCx : RunConfig := ⟨some "wf.yml", some "wf.yml", .Workflow, "wf", false⟩

/-- Counterexample to claim C1 as stated: on a Workflow producing both a
job-dependency error and a glob error, the final list places the glob
error BEFORE the UnresolvedJob error, so the claimed
schema-then-jobs-then-globs shape is violated. -/
theorem run_order_counterexample :
    run envOrderCx cfgOrderCx = some (.mk (some .Workflow) (some "wf.yml")
      [invalidGlobErr "x" "/on/push/paths" "bad pattern", unresolvedJobErr "a" "z"])
    ∧ (run envOrderCx cfgOrderCx).map (fun st => schemaThenJobsThenGlobs st.errors)
        = some false := by
  constructor <;> rfl

/-- Witness for claim C1's amended theorem, at the counterexample input. -/
theorem run_workflow_error_order_witness :
    run envOrderCx cfgOrderCx = some (.mk (some .Workflow) (some "wf.yml")
      (errorsOfValico (envOrderCx.engine .Workflow docOrderCx)
        ++ [invalidGlobErr "x" "/on/push/paths" "bad pattern"]
        ++ workflowNeedsErrors docOrderCx)) :=
  run_workflow_error_order envOrderCx cfgOrderCx docOrderCx
    [invalidGlobErr "x" "/on/push/paths" "bad pattern"] rfl rfl rfl

/-- Claim C9: with the external collaborators fixed (one `Env`), the
pipeline is a pure function of the source text and the document kind:
two configurations agreeing on those — whatever their display path, file
name or verbosity — yield structurally identical states once the
injected display path is erased.  Determinism of two runs on equal
configurations is the reflexivity instance of this. -/
theorem run_pure_in_text_and_kind (env : Env) (c1 c2 : RunConfig)
    (hsrc : c1.src = c2.src) (hty : c1.actionType = c2.actionType) :
    (run env c1).map stripPath = (run env c2).map stripPath := by
  unfold run
  rw [hsrc, hty]
  cases h : env.parseYaml c2.src with
  | error err => simp [stripPath]
  | ok doc =>
    cases h2 : c2.actionType with
    | Action => simp [stripPath]
    | Workflow =>
      cases hp : validatePaths env doc (validateWithEngine env .Workflow doc) with
      | none => simp [hp]
      | some st => simp [hp, stripPath]

/-- Witness for claim C9: two runs differing in display path, file name
and verbosity agree after erasing the display path. -/
theorem run_pure_in_text_and_kind_witness :
    (run envOrderCx ⟨some "a/wf.yml", some "wf.yml", .Workflow, "wf", true⟩).map stripPath
      = (run envOrderCx ⟨none, none, .Workflow, "wf", false⟩).map stripPath :=
  run_pure_in_text_and_kind envOrderCx
    ⟨some "a/wf.yml", some "wf.yml", .Workflow, "wf", true⟩
    ⟨none, none, .Workflow, "wf", false⟩ rfl rfl

lemma validationErrorOfValico_not_glob (e : BoxedValicoError) :
    (validationErrorOfValico e).isGlobErr = false := by
  cases e with
  | mk kind code path title detail sts => cases kind <;> rfl

lemma errorsOfValico_countP_glob (l : List BoxedValicoError) :
    (errorsOfValico l).countP ValidationError.isGlobErr = 0 := by
  induction l with
  | nil => rfl
  | cons e rest ih =>
    simp [errorsOfValico, List.countP_cons, validationErrorOfValico_not_glob, ih]

lemma workflowNeedsErrors_countP_glob (doc : Json) :
    (workflowNeedsErrors doc).countP ValidationError.isGlobErr = 0 := by
  unfold workflowNeedsErrors
  cases (doc.get "jobs").asObject with
  | none => rfl
  | some jobs =>
    rw [List.countP_eq_zero]
    intro e he
    simp only [unresolvedNeedsErrors, List.mem_flatMap, List.mem_map] at he
    obtain ⟨p, _, s, _, rfl⟩ := he
    simp [unresolvedJobErr, ValidationError.isGlobErr]

lemma validateGlobsJs_fst (v : Json) (path : String) (st : ValidationState) :
    (validateGlobsJs v path st).1 = st := by
  unfold validateGlobsJs
  split <;> rfl

lemma validatePathsJs_spec (doc : Json) (st : ValidationState) :
    (validatePathsJs doc st).1 = st
    ∧ (validatePathsJs doc st).2.length = (pathFieldValues doc).countP (fun v => !v.isNull) := by
  unfold validatePathsJs validateGlobsJs pathFieldValues
  by_cases h1 : (((doc.get "on").get "push").get "paths").isNull <;>
  by_cases h2 : (((doc.get "on").get "push").get "paths-ignore").isNull <;>
  by_cases h3 : (((doc.get "on").get "pull_request").get "paths").isNull <;>
  by_cases h4 : (((doc.get "on").get "pull_request").get "paths-ignore").isNull <;>
    simp [h1, h2, h3, h4, List.countP_cons]

lemma runJsBuild_workflow (env : Env) (cfg : RunConfig) (doc : Json)
    (h : env.parseYaml cfg.src = .ok doc) (hty : cfg.actionType = .Workflow) :
    runJsBuild env cfg
      = (.mk (some .Workflow) cfg.filePath
          (errorsOfValico (env.engine .Workflow doc) ++ workflowNeedsErrors doc),
         (validatePathsJs doc (validateWithEngine env .Workflow doc)).2) := by
  unfold runJsBuild
  rw [hty, h]
  simp [validateJobNeeds_errors, validateWithEngine]
  rw [(validatePathsJs_spec doc (.mk none none (errorsOfValico (env.engine .Workflow doc)))).1]
  rfl

lemma runJsBuild_action (env : Env) (cfg : RunConfig) (doc : Json)
    (h : env.parseYaml cfg.src = .ok doc) (hty : cfg.actionType = .Action) :
    runJsBuild env cfg
      = (.mk (some .Action) cfg.filePath (errorsOfValico (env.engine .Action doc)), []) := by
  unfold runJsBuild
  rw [hty, h]
  simp [validateWithEngine]

/-- Claim C7: in the embedded (js) build both entry points are total
functions of the input text (`runJsBuild` has no panic outcome by
construction — invalid documents only populate `errors`), the glob check
contributes no error entry at all, and for a parsed Workflow it emits
exactly one advisory warning per non-null trigger-path field; each entry
point stamps its own document kind. -/
theorem js_entry_points (env : Env) (src : String) (doc : Json)
    (h : env.parseYaml src = .ok doc) :
    ((validateWorkflowEntry env src).1.errors.countP ValidationError.isGlobErr = 0
      ∧ (validateWorkflowEntry env src).1.actionType = some .Workflow
      ∧ (validateWorkflowEntry env src).2.length
          = (pathFieldValues doc).countP (fun v => !v.isNull))
    ∧ ((validateActionEntry env src).1.errors.countP ValidationError.isGlobErr = 0
      ∧ (validateActionEntry env src).1.actionType = some .Action
      ∧ (validateActionEntry env src).2 = []) := by
  have hw := runJsBuild_workflow env (runConfigOfJsConfig ⟨.Workflow, src, false⟩) doc h rfl
  have ha := runJsBuild_action env (runConfigOfJsConfig ⟨.Action, src, false⟩) doc h rfl
  constructor
  · refine ⟨?_, ?_, ?_⟩
    · simp [validateWorkflowEntry, hw, List.countP_append, errorsOfValico_countP_glob,
        workflowNeedsErrors_countP_glob]
    · simp [validateWorkflowEntry, hw]
    · simp [validateWorkflowEntry, hw,
        (validatePathsJs_spec doc (validateWithEngine env .Workflow doc)).2]
  · refine ⟨?_, ?_, ?_⟩
    · simp [validateActionEntry, ha, errorsOfValico_countP_glob]
    · simp [validateActionEntry, ha]
    · simp [validateActionEntry, ha]

/-- A Workflow with one non-null trigger-path field and one unresolved
job, parsed by an engine-silent environment, for the C7 witness. -/
def envJsCx : Env where
  parseYaml := fun _ => .ok docOrderCx
  engine := fun _ _ => []
  globCompile := fun _ => .error "unused in the js build"
  globMatchCount := fun _ => 0

/-- Witness for claim C7: on a document with one non-null trigger-path
field, the workflow entry point returns a state without glob errors and
exactly one warning, and the action entry point warns not at all. -/
theorem js_entry_points_witness :
    (validateWorkflowEntry envJsCx "wf").1.errors.countP ValidationError.isGlobErr = 0
    ∧ (validateWorkflowEntry envJsCx "wf").2.length = 1
    ∧ (validateActionEntry envJsCx "wf").2 = [] :=
  ⟨(js_entry_points envJsCx "wf" docOrderCx rfl).1.1,
   ((js_entry_points envJsCx "wf" docOrderCx rfl).1.2.2).trans (by rfl),
   (js_entry_points envJsCx "wf" docOrderCx rfl).2.2.2⟩

end ActionValidator
